import Mathlib

/-!
Verification of the smart-bookmark repository's data-sync and mutation
contract: a shallow embedding of the Sync View reconciliation logic
(`BookmarkList` realtime handlers and search filter), the Mutation
Gateway (`AddBookmarkForm.handleSubmit`, the `PATCH` route), the URL
validity predicates, and the title-resolution endpoint, together with
theorems settling the specification's claims about them.

External collaborators (the relational Record Store, the JS `URL`
constructor, the HTML title pattern from `lib/constants`) are modelled
explicitly; each such model carries a doc comment saying what it stands
for.
-/

namespace SmartBookmark

/-- A bookmark record, per `supabase-schema.sql`: `id` (uuid primary key),
`user_id` (owner), `url`, `title`, and the two timestamps (modelled as
naturals). -/
structure Bookmark where
  id : String
  user_id : String
  url : String
  title : String
  created_at : Nat
  updated_at : Nat
deriving DecidableEq

/-! ## Sync View event application (`BookmarkList` realtime handlers) -/

/-- The INSERT realtime handler from `BookmarkList`:
`setBookmarks((current) => [newBookmark, ...current])`. -/
def applyInsertEvent (newBookmark : Bookmark) (current : List Bookmark) : List Bookmark :=
  newBookmark :: current

/-- The DELETE realtime handler from `BookmarkList`:
`setBookmarks((current) => current.filter((b) => b.id !== deletedId))`. -/
def applyDeleteEvent (deletedId : String) (current : List Bookmark) : List Bookmark :=
  current.filter (fun b => b.id ≠ deletedId)

/-- The UPDATE realtime handler from `BookmarkList`:
`setBookmarks((current) => current.map((b) => (b.id === updated.id ? updated : b)))`. -/
def applyUpdateEvent (updated : Bookmark) (current : List Bookmark) : List Bookmark :=
  current.map (fun b => if b.id = updated.id then updated else b)

/-! ## String helpers modelling the JS string operations used by the code -/

/-- Whether the pattern (first argument) is a leading segment of the
second list. -/
def listHasPrefix : List Char → List Char → Bool
  | [], _ => true
  | _ :: _, [] => false
  | p :: ps, c :: cs => (p = c) && listHasPrefix ps cs

/-- Whether the pattern `q` occurs contiguously somewhere in `s`
(JS `String.prototype.includes`). -/
def listContainsSub (q : List Char) : List Char → Bool
  | [] => listHasPrefix q []
  | c :: t => listHasPrefix q (c :: t) || listContainsSub q t

/-- Whitespace characters for trimming (the ones JS `trim` strips that
occur in this code's data). -/
def isTrimChar (c : Char) : Bool :=
  c = ' ' || c = '\t' || c = '\n' || c = '\r'

/-- JS `String.prototype.trim`: strip leading and trailing whitespace. -/
def strTrim (s : String) : String :=
  String.mk (((s.toList.dropWhile isTrimChar).reverse.dropWhile isTrimChar).reverse)

/-- JS `s.includes(q)`: substring containment. -/
def strIncludes (s q : String) : Bool :=
  listContainsSub q.toList s.toList

/-- JS `String.prototype.toLowerCase`, modelled character-wise with
`Char.toLower` (agrees with JS on ASCII, which is all the code's data
uses). -/
def strToLower (s : String) : String :=
  String.mk (s.toList.map Char.toLower)

/-- The derived search filter `filteredBookmarks` from `BookmarkList`:
keep every bookmark when the query is empty (JS falsy check
`if (!searchQuery) return true`), else keep bookmarks whose lowercased
title or lowercased url contains the lowercased query. Note the source
does not trim the query. -/
def filteredBookmarks (searchQuery : String) (bookmarks : List Bookmark) : List Bookmark :=
  bookmarks.filter (fun bookmark =>
    if searchQuery = "" then true
    else
      strIncludes (strToLower bookmark.title) (strToLower searchQuery) ||
      strIncludes (strToLower bookmark.url) (strToLower searchQuery))

/-- The search filter as the specification's words describe it (trimmed,
lowercased query); stated only to compare against the source's
`filteredBookmarks`. -/
def specSearchFilter (q : String) (L : List Bookmark) : List Bookmark :=
  L.filter (fun b =>
    strIncludes (strToLower b.title) (strToLower (strTrim q)) ||
    strIncludes (strToLower b.url) (strToLower (strTrim q)))

/-! ## URL model -/

/-- Characters allowed after the first character of a URL scheme. -/
def isSchemeTailChar (c : Char) : Bool :=
  c.isAlpha || c.isDigit || c = '+' || c = '-' || c = '.'

/-- Scan a URL scheme: returns the scheme's characters and the characters
after the colon, or `none` when no well-formed `scheme:` head exists. -/
def takeSchemeAux : List Char → Option (List Char × List Char)
  | [] => none
  | c :: t =>
    if c = ':' then some ([], t)
    else if isSchemeTailChar c then (takeSchemeAux t).map (fun p => (c :: p.1, p.2))
    else none

/-- The components of a parsed URL that the code reads: `protocol`
(JS style, lowercased scheme with trailing colon) and `hostname`. -/
structure URLParts where
  protocol : String
  hostname : String
deriving DecidableEq

/-- Characters that end the host segment of a URL. -/
def isHostEndChar (c : Char) : Bool :=
  c = '/' || c = ':' || c = '?' || c = '#'

/-- Modelled from the spec: the JS `new URL(...)` constructor (an external
runtime facility), restricted to the components the code reads. Parses an
absolute URL: a scheme (letter, then letters/digits/`+`/`-`/`.`) followed
by `:`; for the special schemes `http`/`https` the host follows optional
slashes and must be non-empty (JS throws on `http://`); for other schemes
the host is what follows `//` (possibly empty) or empty when there is no
authority. Scheme and host are lowercased as JS does. Returns `none`
where JS would throw. -/
def parseURL (s : String) : Option URLParts :=
  match takeSchemeAux s.toList with
  | none => none
  | some (schemeCs, rest) =>
    match schemeCs with
    | [] => none
    | c0 :: _ =>
      if c0.isAlpha then
        let protocol : String := String.mk (schemeCs.map Char.toLower) ++ ":"
        if protocol = "http:" ∨ protocol = "https:" then
          let afterSlashes := rest.dropWhile (fun c => c = '/')
          let host := afterSlashes.takeWhile (fun c => !(isHostEndChar c))
          if host = [] then none
          else some ⟨protocol, String.mk (host.map Char.toLower)⟩
        else
          let host :=
            if listHasPrefix ['/', '/'] rest then
              (rest.drop 2).takeWhile (fun c => !(isHostEndChar c))
            else []
          some ⟨protocol, String.mk (host.map Char.toLower)⟩
      else none

/-- The URL validity predicate `isValidUrl` from `lib/utils`
(`src/unnamed/part_006`): `new URL(url)` must succeed and the protocol
must be `http:` or `https:`; any parse failure is caught and yields
`false`. -/
def isValidUrl (url : String) : Bool :=
  match parseURL url with
  | some urlObj => urlObj.protocol = "http:" || urlObj.protocol = "https:"
  | none => false

/-- The URL validity predicate `isValidHttpUrl` from
`app/api/bookmarks/[id]/route.ts`, same logic as `isValidUrl`. -/
def isValidHttpUrl (url : String) : Bool :=
  match parseURL url with
  | some u => u.protocol = "http:" || u.protocol = "https:"
  | none => false

/-! ## Record Store model and the create flow (`AddBookmarkForm.handleSubmit`) -/

/-- The Record Store's table of bookmark rows. -/
abbrev Store := List Bookmark

/-- Whether a row for the given owner and url exists (the
`UNIQUE(user_id, url)` constraint's matching condition from
`supabase-schema.sql`). -/
def ownerUrlTaken (S : Store) (owner url : String) : Bool :=
  S.any (fun b => b.user_id = owner && b.url = url)

/-- Outcome of a store insert. -/
inductive InsertResult where
  | ok (row : Bookmark) (store : Store)
  | uniqueViolation
deriving DecidableEq

/-- Modelled from the spec: the external Record Store's atomic insert
under `CONSTRAINT unique_user_url UNIQUE(user_id, url)` from
`supabase-schema.sql`. Rejects with the constraint violation (Postgres
error code 23505) when a row with the same `(user_id, url)` exists, else
appends the new row with generated id and timestamps. -/
def storeInsert (S : Store) (newId owner url title : String) (now : Nat) : InsertResult :=
  if ownerUrlTaken S owner url then .uniqueViolation
  else
    .ok { id := newId, user_id := owner, url := url, title := title,
          created_at := now, updated_at := now }
      (S ++ [{ id := newId, user_id := owner, url := url, title := title,
               created_at := now, updated_at := now }])

/-- Outcome of the create flow as `AddBookmarkForm.handleSubmit` reports
it to the user. -/
inductive CreateOutcome where
  | ok (b : Bookmark)
  | emptyFields
  | invalidUrl
  | notLoggedIn
  | duplicateUrl
deriving DecidableEq

/-- The decision logic of `AddBookmarkForm.handleSubmit`
(`src/unnamed/part_004`): reject blank fields, reject invalid URLs, require
a logged-in user, pre-check the store for an existing `(user_id, url)`
row (`.select('id').eq('user_id', ...).eq('url', ...).single()`) and fail
with the duplicate message when found, else insert and translate a 23505
constraint rejection into the same duplicate message. `newId`/`now`
stand for the store-generated id and timestamp. -/
def handleSubmit (user : Option String) (url title : String) (S : Store)
    (newId : String) (now : Nat) : CreateOutcome × Store :=
  if url = "" ∨ title = "" then (.emptyFields, S)
  else if !(isValidUrl url) then (.invalidUrl, S)
  else
    match user with
    | none => (.notLoggedIn, S)
    | some uid =>
      if (S.find? (fun b => b.user_id = uid && b.url = url)).isSome then
        (.duplicateUrl, S)
      else
        match storeInsert S newId uid url title now with
        | .uniqueViolation => (.duplicateUrl, S)
        | .ok row S2 => (.ok row, S2)

/-! ## The update endpoint (`PATCH` in `app/api/bookmarks/[id]/route.ts`) -/

/-- Store-level error outcomes the `PATCH` handler distinguishes:
Postgres code 23505 (unique violation), PostgREST code PGRST116 (no rows
for `.single()`), and anything else. -/
inductive StoreErr where
  | uniqueViolation
  | noRows
  | other
deriving DecidableEq

/-- Modelled from the spec: the external Record Store's ownership-scoped
update, `update(updates).eq('id', id).eq('user_id', owner).select('*').single()`.
No row matching `(id, owner)` yields PGRST116; setting a url that another
row of the same owner already holds violates `UNIQUE(user_id, url)` and
yields 23505; otherwise the matching row's present fields are replaced
and `updated_at` refreshed. -/
def storeUpdate (S : Store) (rid owner : String) (newTitle newUrl : Option String)
    (now : Nat) : Except StoreErr (Bookmark × Store) :=
  match S.find? (fun b => b.id = rid && b.user_id = owner) with
  | none => .error .noRows
  | some b =>
    let b2 : Bookmark :=
      { b with title := newTitle.getD b.title, url := newUrl.getD b.url, updated_at := now }
    if S.any (fun c => c.id ≠ b.id && c.user_id = b2.user_id && c.url = b2.url) then
      .error .uniqueViolation
    else
      .ok (b2, S.map (fun c => if c.id = rid && c.user_id = owner then b2 else c))

/-- An HTTP response as the `PATCH` route produces it: the updated record
on success, or a status code with an error message. -/
inductive HttpResponse where
  | ok (b : Bookmark)
  | err (status : Nat) (msg : String)
deriving DecidableEq

/-- The string-typed fields of a parsed `PATCH` request body; a field is
`none` when absent or not a string (the route's `typeof` checks). -/
structure PatchBody where
  title : Option String
  url : Option String
deriving DecidableEq

/-- The error translation at the end of the `PATCH` route (lines 75–91):
23505 to 409, PGRST116 to 404, anything else logged and mapped to 500;
success returns the updated record. The store is unchanged on error. -/
def patchStoreResult (S : Store) : Except StoreErr (Bookmark × Store) → HttpResponse × Store
  | .error .uniqueViolation => (.err 409 "This URL is already bookmarked", S)
  | .error .noRows => (.err 404 "Bookmark not found", S)
  | .error .other => (.err 500 "Failed to update bookmark", S)
  | .ok (b, S2) => (.ok b, S2)

/-- The `PATCH` handler from `app/api/bookmarks/[id]/route.ts`: trim the
string-typed body fields; 400 when the id is missing, when a present
field trims to empty, when a present (non-empty) url fails
`isValidHttpUrl`, or when both fields are absent; 401 when no
authenticated user; otherwise apply the ownership-scoped store update and
translate its outcome. `user` is the authenticated user's id (`none`
when unauthenticated), `now` the server time written into `updated_at`. -/
def PATCH (rid : String) (body : PatchBody) (user : Option String) (S : Store)
    (now : Nat) : HttpResponse × Store :=
  let title := body.title.map strTrim
  let url := body.url.map strTrim
  if rid = "" then (.err 400 "Bookmark id is required", S)
  else if title = some "" ∨ url = some "" then
    (.err 400 "Title and URL cannot be empty", S)
  else if url.any (fun u => !(isValidHttpUrl u)) then
    (.err 400 "Invalid URL (must start with http:// or https://)", S)
  else if title = none ∧ url = none then
    (.err 400 "At least one of title or url is required", S)
  else
    match user with
    | none => (.err 401 "Unauthorized", S)
    | some uid => patchStoreResult S (storeUpdate S rid uid title url now)

/-! ## Title resolution endpoint (`GET` in `src/unnamed/part_002`) -/

/-- Outcome of the outbound fetch of the bookmarked page, as the endpoint
observes it: the document text on a 2xx response, or failure (network
error, non-ok status, or the 5-second abort — anything that throws). -/
inductive FetchOutcome where
  | success (html : String)
  | failure
deriving DecidableEq

/-- Drop everything up to and including the first occurrence of `pat`;
`none` when `pat` does not occur. -/
def dropThroughPat (pat : List Char) : List Char → Option (List Char)
  | [] => if listHasPrefix pat [] then some [] else none
  | c :: t =>
    if listHasPrefix pat (c :: t) then some ((c :: t).drop pat.length)
    else dropThroughPat pat t

/-- The characters before the first occurrence of `pat`; `none` when
`pat` does not occur. -/
def takeUntilPat (pat : List Char) : List Char → Option (List Char)
  | [] => if listHasPrefix pat [] then some [] else none
  | c :: t =>
    if listHasPrefix pat (c :: t) then some []
    else (takeUntilPat pat t).map (fun r => c :: r)

/-- Modelled from the spec: `HTML_TITLE_REGEX` from `lib/constants` (a
repository file not present under `src/`); per the spec a "best-effort
first-match pattern" for the document title — here the text between the
first literal `<title>` and the following `</title>`, `none` when no such
match exists. -/
def htmlTitleMatch (html : String) : Option String :=
  (dropThroughPat "<title>".toList html.toList).bind (fun rest =>
    (takeUntilPat "</title>".toList rest).map (fun cs => String.mk cs))

/-- The timeout budget passed to `AbortSignal.timeout` by the endpoint. -/
def titleFetchTimeoutMs : Nat := 5000

/-- A response of the title endpoint: `{title}` with HTTP 200, or an
error with its 400-class status. -/
inductive TitleResponse where
  | okTitle (title : String)
  | badRequest (status : Nat) (error : String)
deriving DecidableEq

/-- The `GET` handler of the title endpoint (`src/unnamed/part_002`):
400 when the `url` parameter is absent; 400 `Invalid URL` when it does
not parse (the catch block's own re-parse also throws); on fetch failure
(non-ok status, network error, timeout) fall back to the parsed URL's
hostname; on success return the first-match title trimmed, or the
hostname when no match. -/
def fetchTitleGET (urlParam : Option String) (outcome : FetchOutcome) : TitleResponse :=
  match urlParam with
  | none => .badRequest 400 "URL is required"
  | some url =>
    match parseURL url with
    | none => .badRequest 400 "Invalid URL"
    | some u =>
      match outcome with
      | .failure => .okTitle u.hostname
      | .success html =>
        match htmlTitleMatch html with
        | some t => .okTitle (strTrim t)
        | none => .okTitle u.hostname

/-- The condition under which the validation section of `PATCH`
(route lines 26–50) passes and control reaches the auth check: the id is
non-empty, no present field trims to empty, a present url trims to a
string accepted by `isValidHttpUrl`, and at least one field is present. -/
def patchValidates (rid : String) (body : PatchBody) : Prop :=
  rid ≠ "" ∧
  body.title.map strTrim ≠ some "" ∧
  body.url.map strTrim ≠ some "" ∧
  (body.url.map strTrim).all (fun u => isValidHttpUrl u) = true ∧
  ¬ (body.title = none ∧ body.url = none)

instance (rid : String) (body : PatchBody) : Decidable (patchValidates rid body) := by
  unfold patchValidates; infer_instance

/-! ## Concrete records used in examples and counterexamples -/

/-- First record of the specification's search-filter example (§8). -/
def exGoogle : Bookmark :=
  { id := "1", user_id := "u", url := "https://google.com", title := "Google Search",
    created_at := 0, updated_at := 0 }

/-- Second record of the specification's search-filter example (§8). -/
def exMDN : Bookmark :=
  { id := "2", user_id := "u", url := "https://developer.mozilla.org", title := "MDN",
    created_at := 0, updated_at := 0 }

/-- A concrete record used as counterexample input. -/
def bmA : Bookmark :=
  { id := "a", user_id := "u1", url := "https://a.example", title := "A",
    created_at := 0, updated_at := 0 }

/-- A record with `bmA`'s id but different fields (a later version of the
same row). -/
def bmA2 : Bookmark :=
  { id := "a", user_id := "u1", url := "https://a.example", title := "A edited",
    created_at := 0, updated_at := 1 }

/-- A record whose id differs from `bmA`'s. -/
def bmB : Bookmark :=
  { id := "b", user_id := "u1", url := "https://b.example", title := "B",
    created_at := 0, updated_at := 0 }

/-- A record owned by a different owner, used to check ownership scoping. -/
def bmOther : Bookmark :=
  { id := "r3", user_id := "o2", url := "https://c.example", title := "C",
    created_at := 0, updated_at := 0 }

/-- The row produced by the witness run of the create flow. -/
def bmRow : Bookmark :=
  { id := "id1", user_id := "o1", url := "https://a.example", title := "A",
    created_at := 5, updated_at := 5 }

/-! ## Helper lemmas -/

theorem listContainsSub_nil (l : List Char) : listContainsSub [] l = true := by
  cases l <;> simp [listContainsSub, listHasPrefix]

theorem strIncludes_empty (s : String) : strIncludes s "" = true :=
  listContainsSub_nil s.toList

/-! ## Claims about the Sync View event application -/

/-- C1: counterexample. The claim predicts that an insert-event whose
record shares its id with a present entry replaces it in place and that
the result never holds two entries with the same id; the INSERT handler
instead prepends unconditionally, so on the one-element list `[bmA]` the
event for `bmA2` (same id) yields `[bmA2, bmA]`, not `[bmA2]`, and the
mapped ids are not pairwise distinct. -/
theorem insert_event_counterexample :
    applyInsertEvent bmA2 [bmA] = [bmA2, bmA] ∧
    applyInsertEvent bmA2 [bmA] ≠ [bmA2] ∧
    bmA.id = bmA2.id ∧
    ¬ ((applyInsertEvent bmA2 [bmA]).map Bookmark.id).Nodup := by
  decide

/-- C1 (amended): applying an insert-event for record R prepends R to the
front of the list unconditionally — also when an entry with R's id is
already present, in which case the number of entries carrying R's id
grows by one (no replace-in-place, duplicates possible). -/
theorem insert_event_prepends (R : Bookmark) (L : List Bookmark) :
    applyInsertEvent R L = R :: L ∧
    (applyInsertEvent R L).countP (fun b => b.id = R.id)
      = L.countP (fun b => b.id = R.id) + 1 := by
  refine ⟨rfl, ?_⟩
  simp [applyInsertEvent, List.countP_cons]

/-- C2: counterexample. Applying the same insert-event twice to the empty
list yields `[bmA, bmA]`, which differs from the single application
`[bmA]`: the insert-event is not idempotent. -/
theorem insert_event_not_idempotent :
    applyInsertEvent bmA (applyInsertEvent bmA []) ≠ applyInsertEvent bmA [] := by
  decide

/-- C2 (amended): re-applying a delete-event is idempotent, but
re-applying an insert-event never is — the second application prepends a
second copy, so the list always differs from the single application. -/
theorem event_reapplication (R : Bookmark) (x : String) (L : List Bookmark) :
    applyDeleteEvent x (applyDeleteEvent x L) = applyDeleteEvent x L ∧
    applyInsertEvent R (applyInsertEvent R L) ≠ applyInsertEvent R L := by
  constructor
  · simp [applyDeleteEvent, List.filter_filter]
  · intro h
    have hlen := congrArg List.length h
    simp [applyInsertEvent] at hlen

/-- C3: counterexample. The claim predicts the filter matches against the
trimmed query, so `" goo"` on the specification's two-record list would
return the Google record; the source does not trim, searches for the
literal `" goo"`, and returns the empty list. -/
theorem search_filter_counterexample :
    filteredBookmarks " goo" [exGoogle, exMDN] = [] ∧
    specSearchFilter " goo" [exGoogle, exMDN] = [exGoogle] := by
  decide

/-- C3 (amended): the derived search filter returns exactly the ordered
sub-sequence of records whose lowercased title or lowercased url contains
the lowercased (untrimmed) query as a substring; the empty query returns
the full list, and the specification's three concrete examples hold. -/
theorem search_filter_characterization (q : String) (L : List Bookmark) :
    filteredBookmarks q L = L.filter (fun b =>
        strIncludes (strToLower b.title) (strToLower q) ||
        strIncludes (strToLower b.url) (strToLower q)) ∧
    (filteredBookmarks q L).Sublist L ∧
    filteredBookmarks "" L = L ∧
    filteredBookmarks "goo" [exGoogle, exMDN] = [exGoogle] ∧
    filteredBookmarks "" [exGoogle, exMDN] = [exGoogle, exMDN] ∧
    filteredBookmarks "MOZ" [exGoogle, exMDN] = [exMDN] := by
  refine ⟨?_, ?_, ?_, by decide, by decide, by decide⟩
  · unfold filteredBookmarks
    apply List.filter_congr
    intro b _
    by_cases hq : q = ""
    · subst hq
      simp [strIncludes_empty, strToLower]
    · simp [hq]
  · exact List.filter_sublist _
  · simp [filteredBookmarks]

/-- C4: counterexample. The claim predicts an update-event whose record
id is absent from the list prepends the record; the UPDATE handler only
maps over the list, so on `[bmA]` the event for `bmB` (absent id) leaves
the list unchanged instead of producing `[bmB, bmA]`. -/
theorem update_event_counterexample :
    applyUpdateEvent bmB [bmA] = [bmA] ∧
    applyUpdateEvent bmB [bmA] ≠ [bmB, bmA] := by
  decide

/-- C4 (amended): an update-event for record R replaces every entry whose
id equals R's id in place (position-wise, length preserved); when R's id
is absent from the list the event leaves the list unchanged — it is
dropped, not treated as a prepend. -/
theorem update_event_characterization (R : Bookmark) (L : List Bookmark) :
    ((∀ b ∈ L, b.id ≠ R.id) → applyUpdateEvent R L = L) ∧
    (applyUpdateEvent R L).length = L.length ∧
    (∀ i : Nat, (applyUpdateEvent R L)[i]? =
        (L[i]?).map (fun b => if b.id = R.id then R else b)) := by
  refine ⟨?_, by simp [applyUpdateEvent], ?_⟩
  · intro h
    unfold applyUpdateEvent
    have := List.map_congr_left (l := L)
      (f := fun b => if b.id = R.id then R else b) (g := id)
      (fun b hb => by simp [h b hb])
    simpa using this
  · intro i
    simp [applyUpdateEvent]

/-- C4 witness: the amended theorem applied at the concrete absent-id
input, its hypothesis discharged there. -/
theorem update_event_characterization_witness :
    applyUpdateEvent bmB [bmA] = [bmA] :=
  (update_event_characterization bmB [bmA]).1 (by decide)

/-! ## Claims about URL validation and the create flow -/

/-- C8: the URL validity predicate accepts a string exactly when it
parses (per the modelled JS URL constructor) as an absolute URL whose
scheme is http or https; the route's `isValidHttpUrl` agrees with
`isValidUrl` everywhere; sample inputs from each of the claim's
categories (valid http/https, missing scheme, relative path, non-http
scheme) behave as claimed. -/
theorem url_validity_characterization (s : String) :
    (isValidUrl s = true ↔
      ∃ u, parseURL s = some u ∧ (u.protocol = "http:" ∨ u.protocol = "https:")) ∧
    isValidUrl s = isValidHttpUrl s ∧
    isValidUrl "https://google.com" = true ∧
    isValidUrl "http://example.com/path?q=1#frag" = true ∧
    isValidUrl "HTTP://Example.COM" = true ∧
    isValidUrl "google.com" = false ∧
    isValidUrl "/relative/path" = false ∧
    isValidUrl "ftp://host" = false ∧
    isValidUrl "" = false := by
  refine ⟨?_, ?_, by decide, by decide, by decide, by decide, by decide, by decide, by decide⟩
  · unfold isValidUrl
    cases hp : parseURL s with
    | none => simp
    | some u => simp [hp]
  · unfold isValidUrl isValidHttpUrl
    cases hp : parseURL s with
    | none => rfl
    | some u => rfl

/-- C5: after a create for (owner, url) succeeds, a second create for the
same owner and url (any non-blank title) fails with the duplicate
outcome and leaves the store unchanged — here it is the pre-check that
detects it, and the store's uniqueness constraint would also reject the
insert (third conjunct) — and the end state holds exactly one row for
(owner, url). -/
theorem create_duplicate_rejected (o u t t2 : String) (S : Store)
    (id1 id2 : String) (now1 now2 : Nat) (b : Bookmark) (S1 : Store)
    (ht2 : t2 ≠ "")
    (h : handleSubmit (some o) u t S id1 now1 = (.ok b, S1)) :
    handleSubmit (some o) u t2 S1 id2 now2 = (.duplicateUrl, S1) ∧
    S1.countP (fun r => r.user_id = o && r.url = u) = 1 ∧
    storeInsert S1 id2 o u t2 now2 = .uniqueViolation := by
  unfold handleSubmit at h
  split at h
  next h1 => simp at h
  next h1 =>
  split at h
  next h2 => simp at h
  next h2 =>
  split at h
  next u1 hu1 => simp at hu1
  next u1 uid huid =>
  injection huid with huid2
  subst huid2
  split at h
  next h3 => simp at h
  next h3 =>
  split at h
  next heq => simp at h
  next row S2 heq =>
  unfold storeInsert at heq
  split at heq
  next h4 => simp at heq
  next h4 =>
  injection heq with hrow hS2
  injection h with hb hS1
  subst hS1
  subst hS2
  subst hrow
  have hu : u ≠ "" := fun hu0 => h1 (Or.inl hu0)
  have hmem :
      ({ id := id1, user_id := o, url := u, title := t,
         created_at := now1, updated_at := now1 } : Bookmark) ∈
        S ++ [{ id := id1, user_id := o, url := u, title := t,
                created_at := now1, updated_at := now1 }] := by
    simp
  refine ⟨?_, ?_, ?_⟩
  · unfold handleSubmit
    rw [if_neg (by push_neg; exact ⟨hu, ht2⟩)]
    rw [if_neg h2]
    have hfind : (List.find? (fun b => decide (b.user_id = o) && decide (b.url = u))
        (S ++ [{ id := id1, user_id := o, url := u, title := t,
                 created_at := now1, updated_at := now1 }])).isSome = true := by
      rw [List.find?_isSome]
      exact ⟨_, hmem, by simp⟩
    simp [hfind]
  · rw [List.countP_append]
    have hzero : S.countP (fun r => decide (r.user_id = o) && decide (r.url = u)) = 0 := by
      rw [List.countP_eq_zero]
      intro a ha hpa
      exact h3 (by rw [List.find?_isSome]; exact ⟨a, ha, hpa⟩)
    rw [hzero]
    simp
  · unfold storeInsert
    rw [if_pos ?_]
    unfold ownerUrlTaken
    rw [List.any_eq_true]
    exact ⟨_, hmem, by simp⟩


/-- C5 witness: the theorem applied at a concrete run — create on the
empty store, then a duplicate create for the same owner and url. -/
theorem create_duplicate_rejected_witness :
    handleSubmit (some "o1") "https://a.example" "Dup" [bmRow] "id2" 6
      = (.duplicateUrl, [bmRow]) ∧
    [bmRow].countP (fun r => r.user_id = "o1" && r.url = "https://a.example") = 1 := by
  have H := create_duplicate_rejected "o1" "https://a.example" "A" "Dup" []
    "id1" "id2" 5 6 bmRow [bmRow] (by decide) (by decide)
  exact ⟨H.1, H.2.1⟩

/-! ## Claims about the update endpoint -/

theorem patchValidates_url_ok (rid : String) (body : PatchBody)
    (hv : patchValidates rid body) :
    ¬ ((body.url.map strTrim).any (fun u => !(isValidHttpUrl u)) = true) := by
  obtain ⟨h1, h2, h3, h4, h5⟩ := hv
  cases hurl : body.url with
  | none => simp [hurl]
  | some v =>
    rw [hurl] at h4
    simp at h4
    simp [hurl, h4]

theorem patchValidates_not_both_none (rid : String) (body : PatchBody)
    (hv : patchValidates rid body) :
    ¬ (body.title.map strTrim = none ∧ body.url.map strTrim = none) := by
  obtain ⟨h1, h2, h3, h4, h5⟩ := hv
  intro hc
  obtain ⟨ht, hu⟩ := hc
  rw [Option.map_eq_none'] at ht hu
  exact h5 ⟨ht, hu⟩

theorem PATCH_of_validates_auth (rid : String) (body : PatchBody) (uid : String)
    (S : Store) (now : Nat) (hv : patchValidates rid body) :
    PATCH rid body (some uid) S now =
      patchStoreResult S (storeUpdate S rid uid (body.title.map strTrim)
        (body.url.map strTrim) now) := by
  unfold PATCH
  rw [if_neg hv.1]
  rw [if_neg (by push_neg; exact ⟨hv.2.1, hv.2.2.1⟩)]
  rw [if_neg (patchValidates_url_ok rid body hv)]
  rw [if_neg (patchValidates_not_both_none rid body hv)]

theorem PATCH_of_validates_unauth (rid : String) (body : PatchBody)
    (S : Store) (now : Nat) (hv : patchValidates rid body) :
    PATCH rid body none S now = (.err 401 "Unauthorized", S) := by
  unfold PATCH
  rw [if_neg hv.1]
  rw [if_neg (by push_neg; exact ⟨hv.2.1, hv.2.2.1⟩)]
  rw [if_neg (patchValidates_url_ok rid body hv)]
  rw [if_neg (patchValidates_not_both_none rid body hv)]

/-- C6: an update request whose patch contains a title or url that is
empty after trimming is rejected with a 400 response and the store is
untouched (the resulting store equals the input store, for every
authentication state — validation happens before auth and store calls);
likewise a patch with both fields absent is rejected with a 400 response
and the store is untouched. -/
theorem patch_invalid_request (rid : String) (body : PatchBody) (user : Option String)
    (S : Store) (now : Nat) :
    ((body.title.map strTrim = some "" ∨ body.url.map strTrim = some "") →
        ∃ msg, PATCH rid body user S now = (.err 400 msg, S)) ∧
    ((body.title = none ∧ body.url = none) →
        ∃ msg, PATCH rid body user S now = (.err 400 msg, S)) := by
  constructor
  · intro hempty
    unfold PATCH
    by_cases hid : rid = ""
    · exact ⟨_, by rw [if_pos hid]⟩
    · rw [if_neg hid]
      exact ⟨_, by rw [if_pos hempty]⟩
  · rintro ⟨ht, hu⟩
    unfold PATCH
    by_cases hid : rid = ""
    · exact ⟨_, by rw [if_pos hid]⟩
    · refine ⟨"At least one of title or url is required", ?_⟩
      rw [if_neg hid]
      rw [if_neg (by simp [ht, hu])]
      rw [if_neg (by simp [ht, hu])]
      rw [if_pos (by simp [ht, hu])]

/-- C6 witness: a whitespace-only title yields a 400 response with the
store unchanged; a patch with both fields absent does too. -/
theorem patch_invalid_request_witness :
    (∃ msg, PATCH "r1" ⟨some "  ", none⟩ (some "o1") [bmA] 0 = (.err 400 msg, [bmA])) ∧
    (∃ msg, PATCH "r1" ⟨none, none⟩ (some "o1") [bmA] 0 = (.err 400 msg, [bmA])) :=
  ⟨(patch_invalid_request "r1" ⟨some "  ", none⟩ (some "o1") [bmA] 0).1 (by decide),
   (patch_invalid_request "r1" ⟨none, none⟩ (some "o1") [bmA] 0).2 (by decide)⟩

/-- C7: for a validated, authenticated update, (a) when no record matches
both the id and the caller as owner — the id does not exist or the record
belongs to a different owner — the response is 404 Not Found (never 401)
and the store, including any non-owned record, is unchanged; (b) when the
targeted record exists but the patched url coincides with another record
of the same owner, the response is 409 and the store is unchanged; (c)
any other store error maps to a 500 response. -/
theorem patch_scoped_errors (rid uid : String) (body : PatchBody) (S : Store) (now : Nat)
    (hv : patchValidates rid body) :
    (S.find? (fun b => b.id = rid && b.user_id = uid) = none →
        PATCH rid body (some uid) S now = (.err 404 "Bookmark not found", S)) ∧
    (∀ b, S.find? (fun b => b.id = rid && b.user_id = uid) = some b →
        S.any (fun c => c.id ≠ b.id && c.user_id = b.user_id &&
            c.url = (body.url.map strTrim).getD b.url) = true →
        PATCH rid body (some uid) S now = (.err 409 "This URL is already bookmarked", S)) ∧
    (∀ T : Store, patchStoreResult T (.error .other)
        = (.err 500 "Failed to update bookmark", T)) := by
  refine ⟨?_, ?_, fun T => rfl⟩
  · intro hfind
    rw [PATCH_of_validates_auth rid body uid S now hv]
    unfold storeUpdate
    rw [hfind]
    rfl
  · intro b hfind hcoll
    rw [PATCH_of_validates_auth rid body uid S now hv]
    unfold storeUpdate
    rw [hfind]
    simp only [hcoll]
    rfl

/-- C7 witness: the theorem applied at a store holding only a record of a
different owner — the authenticated caller's update of that id yields
404, not 401, and the record is untouched. -/
theorem patch_scoped_errors_witness :
    PATCH "r3" ⟨some "X", none⟩ (some "o1") [bmOther] 9
      = (.err 404 "Bookmark not found", [bmOther]) :=
  ((patch_scoped_errors "r3" "o1" ⟨some "X", none⟩ [bmOther] 9 (by decide)).1) (by decide)

/-- C10: an update request without an authenticated user never changes
the store, and when the input passes validation the response is exactly
401 Unauthorized — a status outside the spec's taxonomy for this
endpoint (validation failures still win and give 400, per the C6
theorem). -/
theorem patch_unauthenticated (rid : String) (body : PatchBody) (S : Store) (now : Nat) :
    (PATCH rid body none S now).2 = S ∧
    (patchValidates rid body →
        PATCH rid body none S now = (.err 401 "Unauthorized", S)) := by
  constructor
  · by_cases hid : rid = ""
    · unfold PATCH
      rw [if_pos hid]
    · by_cases hempty : (body.title.map strTrim = some "" ∨ body.url.map strTrim = some "")
      · unfold PATCH
        rw [if_neg hid, if_pos hempty]
      · by_cases hany : ((body.url.map strTrim).any (fun u => !(isValidHttpUrl u)) = true)
        · unfold PATCH
          rw [if_neg hid, if_neg hempty, if_pos hany]
        · by_cases hboth : (body.title.map strTrim = none ∧ body.url.map strTrim = none)
          · unfold PATCH
            rw [if_neg hid, if_neg hempty, if_neg hany, if_pos hboth]
          · unfold PATCH
            rw [if_neg hid, if_neg hempty, if_neg hany, if_neg hboth]
  · intro hv
    exact PATCH_of_validates_unauth rid body S now hv

/-- C10 witness: a valid patch without an authenticated user at a
concrete store. -/
theorem patch_unauthenticated_witness :
    PATCH "r1" ⟨some "T", none⟩ none [bmA] 0 = (.err 401 "Unauthorized", [bmA]) :=
  (patch_unauthenticated "r1" ⟨some "T", none⟩ [bmA] 0).2 (by decide)

/-! ## Claim about the title resolution endpoint -/

/-- C9: the title endpoint is total over its modelled inputs: a missing
url parameter gives a 400-class error; a parameter that does not parse as
a URL gives a 400-class error; when the url parses, a fetch failure
(network error, non-ok response, or hitting the timeout budget of
5000 ms) yields `{title: host}` with the parsed URL's host name; a
successful fetch yields the first-match title trimmed, or `{title: host}`
when nothing matches — never a fatal error. -/
theorem title_endpoint_behavior (url html t : String) (u : URLParts)
    (outcome : FetchOutcome) :
    fetchTitleGET none outcome = .badRequest 400 "URL is required" ∧
    (parseURL url = none →
        fetchTitleGET (some url) outcome = .badRequest 400 "Invalid URL") ∧
    (parseURL url = some u →
        fetchTitleGET (some url) .failure = .okTitle u.hostname) ∧
    (parseURL url = some u → htmlTitleMatch html = some t →
        fetchTitleGET (some url) (.success html) = .okTitle (strTrim t)) ∧
    (parseURL url = some u → htmlTitleMatch html = none →
        fetchTitleGET (some url) (.success html) = .okTitle u.hostname) ∧
    titleFetchTimeoutMs = 5000 := by
  refine ⟨rfl, ?_, ?_, ?_, ?_, rfl⟩
  · intro hp
    unfold fetchTitleGET
    simp only [hp]
  · intro hp
    unfold fetchTitleGET
    simp only [hp]
  · intro hp hm
    unfold fetchTitleGET
    simp only [hp, hm]
  · intro hp hm
    unfold fetchTitleGET
    simp only [hp, hm]

/-- C9 witness: the theorem applied at concrete inputs — a parsed URL
whose fetched document carries a title, and the same URL with a failed
fetch falling back to the host name. -/
theorem title_endpoint_behavior_witness :
    fetchTitleGET (some "https://developer.mozilla.org")
        (.success "<html><head><title> MDN Web Docs </title></head></html>")
      = .okTitle (strTrim " MDN Web Docs ") ∧
    fetchTitleGET (some "https://developer.mozilla.org") .failure
      = .okTitle "developer.mozilla.org" := by
  have H := title_endpoint_behavior "https://developer.mozilla.org"
    "<html><head><title> MDN Web Docs </title></head></html>" " MDN Web Docs "
    ⟨"https:", "developer.mozilla.org"⟩ .failure
  exact ⟨H.2.2.2.1 (by decide) (by decide), H.2.2.1 (by decide)⟩

end SmartBookmark
